import Mathlib

/-!
Verification of the blech_github_bot decision-and-lifecycle engine.

This file shallowly embeds the trigger evaluator (src/triggers.py,
src/response_agent.py check_triggers), the branch resolution and push
operations (src/git_utils.py), the branch rollback of the develop-issue
workflow (src/response_agent.py, src/branch_handler.py) and the external
editor wrapper run_aider, and proves or refutes the frozen claims about
them.

Conventions of the embedding:
- Python exceptions become an explicit error type PyError carried in
  Except; `raise` becomes returning .error.
- Stateful operations (comment posting, remote URL rewriting, the git
  working copy) are modelled by explicit state passing.
- Python substring tests (`needle in hay`) become list-infix tests on the
  underlying character list of the string.
- Quotation marks inside original Python error message texts are dropped;
  this is noted at each affected definition.
-/

namespace BlechBot

/-- Python exceptions that the embedded code can raise. -/
inductive PyError where
  /-- IndexError, raised by indexing comments[-1] on an empty list. -/
  | indexError : PyError
  | runtimeError : String → PyError
  | importError : String → PyError
  | nameError : String → PyError
  | valueError : String → PyError
  | fileNotFoundError : String → PyError
deriving DecidableEq, Repr

/-- Message text carried by an exception. IndexError carries the fixed
CPython message for negative indexing of an empty list. -/
def PyError.msg : PyError → String
  | .indexError => "list index out of range"
  | .runtimeError s => s
  | .importError s => s
  | .nameError s => s
  | .valueError s => s
  | .fileNotFoundError s => s

/-- Python substring containment, `needle in hay`, as a proposition on the
underlying character lists. -/
def strHas (hay needle : String) : Prop :=
  needle.data <:+: hay.data

instance (hay needle : String) : Decidable (strHas hay needle) := by
  unfold strHas; infer_instance

/-- Boolean form of strHas. -/
def strHasB (hay needle : String) : Bool :=
  decide (strHas hay needle)

/-- An issue or pull request comment; only the body is inspected by the
engine (bot authorship is detected by a signature substring). -/
structure Comment where
  body : String
deriving DecidableEq, Repr

/-- An Item: the attributes of an issue or pull request that the embedded
functions read. Comments are in chronological order. -/
structure Item where
  number : Nat
  title : String
  htmlUrl : String
  labels : List String
  comments : List Comment
deriving DecidableEq, Repr

/-- The signature marker identifying bot comments, from triggers.py. -/
def botMark : String := "generated by blech_bot"

/-- The explicit command marker checked by has_generate_edit_command_trigger. -/
def editCommandMark : String := "[ generate_edit_command ]"

/-- Top-level names bound in the agents module (src/agents.py): its imports,
module variables (including the leaked loop variable func), and function
definitions. `from agents import X` succeeds exactly when X is in this list.
There is no can_push_to_branch. -/
def agentsModuleNames : List String :=
  ["os", "autogen", "subprocess", "ConversableAgent", "AssistantAgent",
   "UserProxyAgent", "bot_tools", "get_github_client", "get_repository",
   "get_issue_comments", "Issue", "random", "string", "triggers",
   "URLExtract", "tool_funcs", "func", "agent_system_messages",
   "register_functions", "is_terminate_msg", "create_user_agent",
   "create_agent", "parse_comments", "generate_prompt"]

/-- Message of the ImportError raised by
`from agents import can_push_to_branch` (quotation marks around the name
in the CPython message are dropped). -/
def canPushImportErr : String :=
  "cannot import name can_push_to_branch from agents"

/-- triggers.has_generate_edit_command_trigger. Its body begins with
`from agents import can_push_to_branch`; the agents module defines no such
name (see agentsModuleNames), so every call raises ImportError before any
comment is inspected. The marker scan and the branch-pushability check
that follow the import statement are therefore dead code; the then-branch
below is proved unreachable rather than modelled. -/
def has_generate_edit_command_trigger (issue : Item) :
    Except PyError (Bool × String) :=
  if h : "can_push_to_branch" ∈ agentsModuleNames then
    absurd h (by decide)
  else
    .error (.importError canPushImportErr)

/-- triggers.has_bot_response: some comment contains the bot signature. -/
def has_bot_response (issue : Item) : Bool :=
  issue.comments.any (fun c => strHasB c.body botMark)

/-- Index of the latest bot comment, as computed by the loop in
triggers.has_user_feedback: fold over comments with position, keeping the
last index whose body contains the bot signature, starting from -1. -/
def latestBotIdxFrom : List Comment → Int → Int → Int
  | [], _, acc => acc
  | c :: rest, i, acc =>
      latestBotIdxFrom rest (i + 1)
        (if strHasB c.body botMark then i else acc)

/-- triggers.has_user_feedback: a bot comment exists and is not the last
comment. -/
def has_user_feedback (issue : Item) : Bool :=
  let idx := latestBotIdxFrom issue.comments 0 (-1)
  decide (0 ≤ idx ∧ idx < (issue.comments.length : Int) - 1)

/-- The trigger kinds that response_agent.check_triggers can return. -/
inductive TriggerKind where
  | generate_edit_command
  | feedback
  | new_response
deriving DecidableEq, Repr

/-- Python truthiness of the pair returned by
has_generate_edit_command_trigger: check_triggers tests the 2-tuple itself
in an if statement, and a nonempty tuple is truthy regardless of its
contents, so this is constantly true. -/
def pyTupleTruthy (_ : Bool × String) : Bool := true

/-- response_agent.check_triggers: priority-ordered trigger selection.
The first test calls has_generate_edit_command_trigger, whose exception
propagates; were a pair returned, it would be tested for truthiness as a
tuple (see pyTupleTruthy). -/
def check_triggers (issue : Item) : Except PyError (Option TriggerKind) :=
  match has_generate_edit_command_trigger issue with
  | .error e => .error e
  | .ok t =>
      if pyTupleTruthy t then .ok (some .generate_edit_command)
      else if has_user_feedback issue then .ok (some .feedback)
      else if !(has_bot_response issue) then .ok (some .new_response)
      else .ok none

/-- Concrete item for C1: a single comment that is exactly the
generate_edit_command marker. -/
def itemMarkerOnly : Item :=
  { number := 7
    title := "add a flag"
    htmlUrl := "https://github.com/owner/repo/issues/7"
    labels := ["blech_bot"]
    comments := [{ body := "[ generate_edit_command ]" }] }

/-- Concrete item for C2: an issue with zero comments. -/
def itemNoComments : Item :=
  { number := 8
    title := "empty issue"
    htmlUrl := "https://github.com/owner/repo/issues/8"
    labels := ["blech_bot"]
    comments := [] }

/-- C1 counterexample: the last (only) comment of itemMarkerOnly is
exactly the marker, yet check_triggers does not return the
generate_edit_command selection — it evaluates to the propagated
ImportError raised inside has_generate_edit_command_trigger, an error
value distinct from every returned trigger. -/
theorem checkTriggers_marker_not_selected :
    (itemMarkerOnly.comments.getLast?).map Comment.body =
      some "[ generate_edit_command ]" ∧
    check_triggers itemMarkerOnly =
      .error (.importError canPushImportErr) :=
  ⟨rfl, rfl⟩

/-- C1 amended: check_triggers never selects generate_edit_command (or any
other trigger): every call fails with ImportError, because the body of
has_generate_edit_command_trigger begins with
`from agents import can_push_to_branch` and the agents module defines no
such name; the content of the most recent comment is never consulted. -/
theorem checkTriggers_always_importError (issue : Item) :
    check_triggers issue = .error (.importError canPushImportErr) := rfl

/-- C2: an issue with zero comments does not evaluate to new_response:
check_triggers raises ImportError (and even with the missing import
repaired, the returned 2-tuple is truthy, so generate_edit_command would
be selected). This contradicts the repository's own test_check_triggers,
which expects new_response when the edit-command predicate is falsy and
no bot response exists. -/
theorem checkTriggers_empty_not_newResponse :
    itemNoComments.comments = [] ∧
    check_triggers itemNoComments = .error (.importError canPushImportErr) :=
  ⟨rfl, rfl⟩

/-- Python str.join with a separator, used for the branch-list lines. -/
def strJoin (sep : String) : List String → String
  | [] => ""
  | [x] => x
  | x :: xs => x ++ sep ++ strJoin sep xs

/-- The keys of branch_dict in get_development_branch: the distinct branch
names occurring in the gh listing. Python builds them with set(); iteration
order of a set is unspecified, and the model fixes one order, which is
irrelevant to the claims (they only concern which names occur). -/
def uniqueNamesOf (rb : List (String × String)) : List String :=
  (rb.map Prod.fst).dedup

/-- branch_dict[nm]: the listing metadata (remote url or flag, as text) of
every entry whose branch name is nm, in listing order. -/
def metasFor (rb : List (String × String)) (nm : String) : List String :=
  (rb.filter (fun p => p.1 == nm)).map Prod.snd

/-- Rendering of the metadata list inside an f-string; Python renders a
list with brackets and quoted elements, the quoting is dropped here. -/
def metaRender (ms : List String) : String :=
  "[" ++ strJoin ", " ms ++ "]"

/-- Header of the multiple-branches error message. -/
def mbHeader (issueNumber : Nat) : String :=
  "Found multiple branches for issue #" ++ toString issueNumber ++ ":\n"

/-- The newline-joined branch list of the multiple-branches error message,
one line per distinct branch name. -/
def mbLines (rb : List (String × String)) : String :=
  strJoin "\n"
    ((uniqueNamesOf rb).map
      (fun nm => "- " ++ nm ++ " : Remote = " ++ metaRender (metasFor rb nm)))

/-- Trailing advice line of the multiple-branches error message. -/
def mbFooter : String :=
  "\nPlease delete or use existing branches before creating a new one."

/-- The full error message built by get_development_branch when more than
one branch references the issue. -/
def multipleBranchesMsg (issueNumber : Nat) (rb : List (String × String)) :
    String :=
  mbHeader issueNumber ++ mbLines rb ++ mbFooter

/-- The signature appended by write_issue_response; llm_config is importable
in the running system, so the model-bearing form is used. -/
def botSignature : String :=
  "\n\n---\n*This response was automatically generated by blech_bot using model gpt-4o*"

/-- git_utils.write_issue_response: clean_response strips TERMINATE tokens
and duplicated basic signatures — on the error messages posted by the
functions modelled here, which contain neither, it leaves the text
unchanged and is modelled as the identity — then one signature is appended
and exactly one comment is created. -/
def write_issue_response (cs : List Comment) (text : String) : List Comment :=
  cs ++ [{ body := text ++ botSignature }]

/-- Message of the FileNotFoundError handler for a missing gh CLI. -/
def ghNotFoundMsg : String :=
  "GitHub CLI (gh) not found. Please install it first."

/-- State read and written by get_development_branch: the gh branch listing
for the issue, the issue comments, and the behaviour of the gh CLI calls
(installed, whether `gh issue develop` succeeds, and — modelling the gh
contract that a successful develop creates exactly one branch which the
subsequent listing returns — the created branch and its url). -/
structure GhState where
  relatedBranches : List (String × String)
  comments : List Comment
  ghInstalled : Bool
  ghCreateOk : Bool
  createdBranch : String
  createdUrl : String
  ghStderr : String
deriving DecidableEq, Repr

/-- git_utils.get_development_branch. Returns the result (None, a branch
name, or a raised exception) together with the state after the call
(comments may gain one error comment; a successful create changes the
listing). Every error path first checks whether the latest comment already
reports the error before posting — comments[-1] on an empty comment list
raises IndexError inside that check, before anything is posted. -/
def get_development_branch (st : GhState) (issueNumber : Nat)
    (create : Bool) : Except PyError (Option String) × GhState :=
  let names := uniqueNamesOf st.relatedBranches
  if 1 < names.length then
    let errorMsg := multipleBranchesMsg issueNumber st.relatedBranches
    match st.comments.getLast? with
    | none => (.error .indexError, st)
    | some last =>
        if strHasB last.body "Found multiple branches" then
          (.error (.runtimeError errorMsg), st)
        else
          (.error (.runtimeError errorMsg),
           { st with comments := write_issue_response st.comments errorMsg })
  else if names.length = 1 then
    (.ok names.head?, st)
  else if create then
    if !st.ghInstalled then
      match st.comments.getLast? with
      | none => (.error .indexError, st)
      | some last =>
          if strHasB last.body ghNotFoundMsg then
            (.error (.fileNotFoundError ghNotFoundMsg), st)
          else
            (.error (.fileNotFoundError ghNotFoundMsg),
             { st with comments := write_issue_response st.comments ghNotFoundMsg })
    else if st.ghCreateOk then
      (.ok (some st.createdBranch),
       { st with relatedBranches := [(st.createdBranch, st.createdUrl)] })
    else
      let errorMsg := "Failed to create development branch: " ++ st.ghStderr.trim
      match st.comments.getLast? with
      | none => (.error .indexError, st)
      | some last =>
          if strHasB last.body "Failed to create" then
            (.error (.runtimeError errorMsg), st)
          else
            (.error (.runtimeError errorMsg),
             { st with comments := write_issue_response st.comments errorMsg })
  else
    (.ok none, st)

/-- Member of a joined list is an infix of the join. -/
theorem infix_strJoin (sep : String) :
    ∀ (L : List String) (x : String), x ∈ L →
      x.data <:+: (strJoin sep L).data := by
  intro L
  induction L with
  | nil => intro x hx; exact absurd hx (List.not_mem_nil x)
  | cons hd tl ih =>
      intro x hx
      cases tl with
      | nil =>
          rcases List.mem_singleton.mp hx with rfl
          exact List.infix_refl _
      | cons h2 t2 =>
          have hstep : strJoin sep (hd :: h2 :: t2) =
              hd ++ sep ++ strJoin sep (h2 :: t2) := rfl
          rcases List.mem_cons.mp hx with rfl | hmem
          · refine List.IsPrefix.isInfix ?_
            rw [hstep]
            simp only [String.data_append, List.append_assoc]
            exact List.prefix_append _ _
          · have := ih x hmem
            refine this.trans ?_
            refine List.IsSuffix.isInfix ?_
            rw [hstep]
            simp only [String.data_append]
            exact List.suffix_append _ _

/-- Every distinct branch name occurs in the multiple-branches message. -/
theorem name_mem_multipleBranchesMsg (issueNumber : Nat)
    (rb : List (String × String)) (nm : String)
    (hmem : nm ∈ uniqueNamesOf rb) :
    strHas (multipleBranchesMsg issueNumber rb) nm := by
  unfold strHas multipleBranchesMsg
  have hline : nm.data <:+:
      ("- " ++ nm ++ " : Remote = " ++ metaRender (metasFor rb nm)).data := by
    refine ⟨"- ".data, (" : Remote = " ++ metaRender (metasFor rb nm)).data, ?_⟩
    simp [String.data_append]
  have hjoin : ("- " ++ nm ++ " : Remote = " ++ metaRender (metasFor rb nm)).data
      <:+: (mbLines rb).data := by
    refine infix_strJoin "\n" _ _ ?_
    exact List.mem_map_of_mem _ hmem
  have hmid : (mbLines rb).data <:+:
      (mbHeader issueNumber ++ mbLines rb ++ mbFooter).data := by
    refine ⟨(mbHeader issueNumber).data, mbFooter.data, ?_⟩
    simp [String.data_append]
  exact (hline.trans hjoin).trans hmid

/-- Concrete state for the C3 counterexample: two distinct branches
reference issue 42 and the issue has zero comments. -/
def stTwoBranchesNoComments : GhState :=
  { relatedBranches := [("42-fix-a", "url-a"), ("42-fix-b", "url-b")]
    comments := []
    ghInstalled := true
    ghCreateOk := true
    createdBranch := "unused"
    createdUrl := "unused"
    ghStderr := "" }

/-- C3 counterexample: with two distinct branches for the issue and zero
comments, get_development_branch raises IndexError from the unguarded
comments[-1] in the duplicate-report check — an error whose message does
not enumerate the branch names — instead of the enumerating RuntimeError. -/
theorem getDevBranch_twoBranches_noComments_indexError :
    2 ≤ (uniqueNamesOf stTwoBranchesNoComments.relatedBranches).length ∧
    (get_development_branch stTwoBranchesNoComments 42 true).1 =
      .error .indexError ∧
    PyError.msg .indexError = "list index out of range" :=
  ⟨by decide, rfl, rfl⟩

/-- C3 amended: if at least two distinct branches reference the issue,
get_development_branch never returns a branch (for either value of create),
and — provided the issue has at least one comment — it raises a
RuntimeError whose message enumerates every one of the distinct branch
names. With zero comments the duplicate-report check itself raises
IndexError before anything is posted. -/
theorem getDevBranch_multiple_neverReturns (st : GhState) (n : Nat)
    (create : Bool)
    (h2 : 2 ≤ (uniqueNamesOf st.relatedBranches).length) :
    (∀ b, (get_development_branch st n create).1 ≠ .ok b) ∧
    (st.comments ≠ [] →
      (get_development_branch st n create).1 =
        .error (.runtimeError (multipleBranchesMsg n st.relatedBranches)) ∧
      ∀ nm ∈ uniqueNamesOf st.relatedBranches,
        strHas (multipleBranchesMsg n st.relatedBranches) nm) := by
  have hlt : 1 < (uniqueNamesOf st.relatedBranches).length := h2
  constructor
  · intro b
    unfold get_development_branch
    simp only [if_pos hlt]
    cases hl : st.comments.getLast? with
    | none => intro h; exact Except.noConfusion h
    | some last =>
        by_cases hdup : strHasB last.body "Found multiple branches" = true
        · simp only [hdup, if_true]
          intro h; exact Except.noConfusion h
        · simp only [hdup, if_false]
          intro h; exact Except.noConfusion h
  · intro hne
    have hl : st.comments.getLast? ≠ none := by
      intro hnone
      exact hne (List.getLast?_eq_none_iff.mp hnone)
    constructor
    · unfold get_development_branch
      simp only [if_pos hlt]
      cases hg : st.comments.getLast? with
      | none => exact absurd hg hl
      | some last =>
          by_cases hdup : strHasB last.body "Found multiple branches" = true
          · simp only [hdup, if_true]
          · simp only [hdup, Bool.false_eq_true, if_false]
    · intro nm hmem
      exact name_mem_multipleBranchesMsg n st.relatedBranches nm hmem

/-- Witness for the amended C3 theorem at a concrete two-branch state with
one comment: the enumerating RuntimeError is raised. -/
theorem getDevBranch_multiple_neverReturns_witness :
    (get_development_branch
      { stTwoBranchesNoComments with comments := [{ body := "please fix" }] }
      42 true).1 =
      .error (.runtimeError (multipleBranchesMsg 42
        [("42-fix-a", "url-a"), ("42-fix-b", "url-b")])) :=
  ((getDevBranch_multiple_neverReturns
      { stTwoBranchesNoComments with comments := [{ body := "please fix" }] }
      42 true (by decide)).2 (by decide)).1

/-- C4: round-trip of branch resolution — if resolving with create=true
returns a branch, then immediately resolving again on the resulting state
with create=false returns the same branch. -/
theorem getDevBranch_roundTrip (st : GhState) (n : Nat) (b : String)
    (h : (get_development_branch st n true).1 = .ok (some b)) :
    (get_development_branch (get_development_branch st n true).2 n false).1 =
      .ok (some b) := by
  by_cases hlt : 1 < (uniqueNamesOf st.relatedBranches).length
  · exact absurd h
      ((getDevBranch_multiple_neverReturns st n true hlt).1 (some b))
  · by_cases h1 : (uniqueNamesOf st.relatedBranches).length = 1
    · have hres : get_development_branch st n true =
          (.ok (uniqueNamesOf st.relatedBranches).head?, st) := by
        unfold get_development_branch
        simp only [if_neg hlt, if_pos h1]
      rw [hres] at h ⊢
      simpa only [get_development_branch, if_neg hlt, if_pos h1] using h
    · have h0 : (uniqueNamesOf st.relatedBranches).length = 0 := by omega
      by_cases hinst : st.ghInstalled = true
      · by_cases hok : st.ghCreateOk = true
        · have hres : get_development_branch st n true =
              (.ok (some st.createdBranch),
               { st with relatedBranches :=
                  [(st.createdBranch, st.createdUrl)] }) := by
            unfold get_development_branch
            simp only [if_neg hlt, if_neg h1, if_pos rfl, hinst, hok,
              Bool.not_true, Bool.false_eq_true, if_false, if_true]
          rw [hres] at h ⊢
          have hb : st.createdBranch = b := by
            simpa using h
          subst hb
          unfold get_development_branch
          simp [uniqueNamesOf]
        · have hok2 : st.ghCreateOk = false := by
            simpa using hok
          exfalso
          revert h
          unfold get_development_branch
          simp only [if_neg hlt, if_neg h1, if_pos rfl, hinst, hok2,
            Bool.not_true, Bool.false_eq_true, if_false]
          cases hg : st.comments.getLast? with
          | none => intro hco; exact Except.noConfusion hco
          | some last =>
              by_cases hdup : strHasB last.body "Failed to create" = true
              · simp only [hdup, if_true]
                intro hco; exact Except.noConfusion hco
              · simp only [hdup, if_false]
                intro hco; exact Except.noConfusion hco
      · have hinst2 : st.ghInstalled = false := by
          simpa using hinst
        exfalso
        revert h
        unfold get_development_branch
        simp only [if_neg hlt, if_neg h1, if_pos rfl, hinst2,
          Bool.not_false, if_true]
        cases hg : st.comments.getLast? with
        | none => intro hco; exact Except.noConfusion hco
        | some last =>
            by_cases hdup : strHasB last.body ghNotFoundMsg = true
            · simp only [hdup, if_true]
              intro hco; exact Except.noConfusion hco
            · simp only [hdup, if_false]
              intro hco; exact Except.noConfusion hco

/-- Witness for the round-trip theorem: a state with exactly one branch
for issue 42; both calls return that branch. -/
theorem getDevBranch_roundTrip_witness :
    (get_development_branch
      { stTwoBranchesNoComments with
          relatedBranches := [("42-fix-a", "url-a")] } 42 true).1 =
      .ok (some "42-fix-a") ∧
    (get_development_branch
      (get_development_branch
        { stTwoBranchesNoComments with
            relatedBranches := [("42-fix-a", "url-a")] } 42 true).2
      42 false).1 = .ok (some "42-fix-a") := by
  constructor
  · rfl
  · exact getDevBranch_roundTrip
      { stTwoBranchesNoComments with
          relatedBranches := [("42-fix-a", "url-a")] } 42 "42-fix-a" rfl

/-- Outcome of the underlying `remote.push` call. -/
inductive PushAttempt where
  | ok
  | gitCommandError (stderr : String)
deriving DecidableEq, Repr

/-- Environment of push_changes_with_authentication: the GitHub token (the
empty string models an absent token, which Python tests with `if not
token`), the persisted remote URL before the call, the outcome the
underlying git push would have, whether the reporting thread is an Issue
(else a PullRequest), and that thread's comments. -/
structure PushEnv where
  token : String
  repoUrl : String
  attempt : PushAttempt
  threadIsIssue : Bool
  threadComments : List Comment
deriving DecidableEq, Repr

/-- Result of one call of push_changes_with_authentication: the returned
value or raised exception, the persisted remote URL after the call, the
thread comments after the call, and the URL the remote briefly held while
the push ran. -/
structure PushResult where
  result : Except PyError (Bool × Option String)
  remoteUrl : String
  threadComments : List Comment
  urlDuringPush : String
deriving Repr

/-- The token-bearing rewritten URL: the part of the original URL after
github.com/ re-attached to an x-access-token authority. -/
def tokenBearingUrl (token repoUrl : String) : String :=
  "https://x-access-token:" ++ token ++ "@github.com/" ++
    (((repoUrl.splitOn "github.com/").getLast?).getD repoUrl)

/-- The push-rejection error message. -/
def pushFailMsg (stderr : String) : String :=
  "Failed to push changes: " ++ stderr.trim

/-- git_utils.push_changes_with_authentication. For an https remote the
URL is rewritten to the token-bearing form before the push and restored in
the finally block on every exit path, normal or exceptional; a non-https
URL is never rewritten. A git command error is converted into a returned
(false, message) pair after an error comment is posted unless the latest
thread comment already reports a push failure — comments[-1] on a thread
with no comments raises IndexError inside that check (and the finally
block still restores the URL). Issue threads are posted to through
write_issue_response (signed); PullRequest threads through a raw
create_issue_comment (unsigned). -/
def push_changes_with_authentication (env : PushEnv) : PushResult :=
  if env.token == "" then
    { result := .error (.valueError "GitHub token not found in environment variables")
      remoteUrl := env.repoUrl
      threadComments := env.threadComments
      urlDuringPush := env.repoUrl }
  else
    let isHttps := env.repoUrl.startsWith "https://"
    let urlWhilePushing :=
      if isHttps then tokenBearingUrl env.token env.repoUrl else env.repoUrl
    let afterTry : Except PyError (Bool × Option String) × List Comment :=
      match env.attempt with
      | .ok => (.ok (true, none), env.threadComments)
      | .gitCommandError stderr =>
          let errorMsg := pushFailMsg stderr
          match env.threadComments.getLast? with
          | none => (.error .indexError, env.threadComments)
          | some last =>
              if strHasB last.body "Failed to push changes" then
                (.ok (false, some errorMsg), env.threadComments)
              else
                (.ok (false, some errorMsg),
                 if env.threadIsIssue then
                   write_issue_response env.threadComments errorMsg
                 else
                   env.threadComments ++ [{ body := errorMsg }])
    let urlAfterFinally := if isHttps then env.repoUrl else urlWhilePushing
    { result := afterTry.1
      remoteUrl := urlAfterFinally
      threadComments := afterTry.2
      urlDuringPush := urlWhilePushing }

/-- Concrete environment for the C5 counterexample: a rejected push whose
reporting thread has zero comments. -/
def envRejectedNoComments : PushEnv :=
  { token := "tok"
    repoUrl := "https://github.com/owner/repo.git"
    attempt := .gitCommandError "remote rejected"
    threadIsIssue := true
    threadComments := [] }

/-- C5 counterexample: a normal push rejection on a thread with zero
comments raises IndexError from the unguarded comments[-1] in the
duplicate-report check instead of returning a (false, message) pair. -/
theorem push_rejected_noComments_raises :
    (push_changes_with_authentication envRejectedNoComments).result =
      .error .indexError ∧
    PyError.msg .indexError = "list index out of range" :=
  ⟨rfl, rfl⟩

/-- C5 amended: with a token present and at least one comment on the
reporting thread, a successful push returns (true, none) and a git command
error returns (false, message) without raising; with zero comments the
duplicate-report check itself raises IndexError. -/
theorem push_returns_pair (env : PushEnv) (htok : ¬ env.token = "")
    (hc : env.threadComments ≠ []) :
    (env.attempt = .ok →
      (push_changes_with_authentication env).result = .ok (true, none)) ∧
    (∀ stderr, env.attempt = .gitCommandError stderr →
      (push_changes_with_authentication env).result =
        .ok (false, some (pushFailMsg stderr))) := by
  have htokb : (env.token == "") = false := by
    simpa using htok
  constructor
  · intro hok
    unfold push_changes_with_authentication
    simp only [htokb, Bool.false_eq_true, if_false, hok]
  · intro stderr hgit
    unfold push_changes_with_authentication
    simp only [htokb, Bool.false_eq_true, if_false, hgit]
    cases hg : env.threadComments.getLast? with
    | none =>
        exact absurd (List.getLast?_eq_none_iff.mp hg) hc
    | some last =>
        by_cases hdup : strHasB last.body "Failed to push changes" = true
        · simp only [hdup, if_true]
        · simp only [hdup, Bool.false_eq_true, if_false]

/-- Witness for the amended C5 theorem: a concrete rejected push on a
thread with one comment returns the (false, message) pair. -/
theorem push_returns_pair_witness :
    (push_changes_with_authentication
      { envRejectedNoComments with threadComments := [{ body := "hi" }] }).result =
      .ok (false, some (pushFailMsg "remote rejected")) := by
  exact (push_returns_pair
    { envRejectedNoComments with threadComments := [{ body := "hi" }] }
    (by decide) (by decide)).2 "remote rejected" rfl

/-- C6: after every invocation of push_changes_with_authentication — push
succeeded, rejected, or an exception raised — the persisted remote URL
equals its value before the call; the token-bearing URL exists only for
the duration of the push. -/
theorem push_restores_remoteUrl (env : PushEnv) :
    (push_changes_with_authentication env).remoteUrl = env.repoUrl := by
  unfold push_changes_with_authentication
  by_cases htok : (env.token == "") = true
  · simp only [htok, if_true]
  · simp only [htok, Bool.false_eq_true, if_false]
    by_cases hhttps : env.repoUrl.startsWith "https://" = true
    · simp only [hhttps, if_true]
    · simp only [hhttps, Bool.false_eq_true, if_false]

/-- The last element of a list with one appended element. -/
theorem getLast?_append_singleton {α : Type} (l : List α) (a : α) :
    (l ++ [a]).getLast? = some a :=
  List.getLast?_concat l

/-- The multiple-branches message, with anything appended after it, still
contains the dedup marker, which is a prefix of its header. -/
theorem multipleBranchesMsg_hasMarker (n : Nat) (rb : List (String × String))
    (tail : String) :
    strHas (multipleBranchesMsg n rb ++ tail) "Found multiple branches" := by
  unfold strHas multipleBranchesMsg mbHeader
  simp only [String.data_append, List.append_assoc]
  refine List.IsPrefix.isInfix ?_
  refine List.IsPrefix.trans ?_
    (List.prefix_append "Found multiple branches for issue #".data _)
  decide

/-- The push-failure message, with anything appended after it, contains
the dedup marker, which is a prefix of it. -/
theorem pushFailMsg_hasMarker (stderr tail : String) :
    strHas (pushFailMsg stderr ++ tail) "Failed to push changes" := by
  unfold strHas pushFailMsg
  simp only [String.data_append, List.append_assoc]
  refine List.IsPrefix.isInfix ?_
  refine List.IsPrefix.trans ?_
    (List.prefix_append "Failed to push changes: ".data _)
  decide

/-- The bare push-failure message contains the dedup marker. -/
theorem pushFailMsg_hasMarker_plain (stderr : String) :
    strHas (pushFailMsg stderr) "Failed to push changes" := by
  unfold strHas pushFailMsg
  simp only [String.data_append]
  refine List.IsPrefix.isInfix ?_
  refine List.IsPrefix.trans ?_
    (List.prefix_append "Failed to push changes: ".data _)
  decide

/-- C9: error publication is idempotent at both deduplicated sites. For
the multiple-branches report of get_development_branch: when the error is
not yet reported in the latest comment, the first call appends exactly one
signed error comment and the second call on the resulting state appends
nothing. For the push-failure report of push_changes_with_authentication:
the first call appends exactly one comment carrying the failure message
and a second call on the resulting thread appends nothing. -/
theorem errorPublication_idempotent
    (st : GhState) (n : Nat) (create : Bool)
    (h2 : 2 ≤ (uniqueNamesOf st.relatedBranches).length)
    (last0 : Comment) (hl0 : st.comments.getLast? = some last0)
    (hfresh : ¬ strHas last0.body "Found multiple branches")
    (env : PushEnv) (stderr : String)
    (htok : ¬ env.token = "")
    (hatt : env.attempt = .gitCommandError stderr)
    (lastp : Comment) (hlp : env.threadComments.getLast? = some lastp)
    (hfreshp : ¬ strHas lastp.body "Failed to push changes") :
    ((get_development_branch st n create).2.comments =
        st.comments ++
          [{ body := multipleBranchesMsg n st.relatedBranches ++ botSignature }] ∧
      (get_development_branch
        (get_development_branch st n create).2 n create).2.comments =
        (get_development_branch st n create).2.comments) ∧
    ((∃ c, (push_changes_with_authentication env).threadComments =
          env.threadComments ++ [c] ∧
          strHas c.body "Failed to push changes") ∧
      (push_changes_with_authentication
        { env with threadComments :=
            (push_changes_with_authentication env).threadComments }).threadComments =
        (push_changes_with_authentication env).threadComments) := by
  have hlt : 1 < (uniqueNamesOf st.relatedBranches).length := h2
  have hfreshb : strHasB last0.body "Found multiple branches" = false := by
    simp [strHasB, hfresh]
  have hfirst : (get_development_branch st n create).2 =
      { st with comments :=
          write_issue_response st.comments (multipleBranchesMsg n st.relatedBranches) } := by
    unfold get_development_branch
    simp only [if_pos hlt, hl0, hfreshb, Bool.false_eq_true, if_false]
  constructor
  · constructor
    · rw [hfirst]
      rfl
    · rw [hfirst]
      have hlast1 : (write_issue_response st.comments
          (multipleBranchesMsg n st.relatedBranches)).getLast? =
          some { body := multipleBranchesMsg n st.relatedBranches ++ botSignature } := by
        unfold write_issue_response
        exact getLast?_append_singleton _ _
      have hdup1 : strHasB
          (multipleBranchesMsg n st.relatedBranches ++ botSignature)
          "Found multiple branches" = true := by
        simp [strHasB]
        exact multipleBranchesMsg_hasMarker n st.relatedBranches botSignature
      unfold get_development_branch
      simp only [if_pos hlt, hlast1, hdup1, if_true]
  · have htokb : (env.token == "") = false := by
      simpa using htok
    have hfreshpb : strHasB lastp.body "Failed to push changes" = false := by
      simp [strHasB, hfreshp]
    have hfirstp : (push_changes_with_authentication env).threadComments =
        if env.threadIsIssue then
          write_issue_response env.threadComments (pushFailMsg stderr)
        else
          env.threadComments ++ [{ body := pushFailMsg stderr }] := by
      unfold push_changes_with_authentication
      simp only [htokb, Bool.false_eq_true, if_false, hatt, hlp, hfreshpb]
    constructor
    · rw [hfirstp]
      by_cases hiss : env.threadIsIssue = true
      · refine ⟨{ body := pushFailMsg stderr ++ botSignature }, ?_, ?_⟩
        · simp only [hiss, if_true]
          rfl
        · exact pushFailMsg_hasMarker stderr botSignature
      · refine ⟨{ body := pushFailMsg stderr }, ?_, ?_⟩
        · simp only [hiss, Bool.false_eq_true, if_false]
        · exact pushFailMsg_hasMarker_plain stderr
    · rw [hfirstp]
      by_cases hiss : env.threadIsIssue = true
      · have hlast2 : (write_issue_response env.threadComments
            (pushFailMsg stderr)).getLast? =
            some { body := pushFailMsg stderr ++ botSignature } := by
          unfold write_issue_response
          exact getLast?_append_singleton _ _
        have hdup2 : strHasB (pushFailMsg stderr ++ botSignature)
            "Failed to push changes" = true := by
          simp [strHasB]
          exact pushFailMsg_hasMarker stderr botSignature
        simp only [hiss, if_true]
        unfold push_changes_with_authentication
        simp only [htokb, Bool.false_eq_true, if_false, hatt, hlast2,
          hdup2, if_true]
      · have hlast2 : (env.threadComments ++
            [(⟨pushFailMsg stderr⟩ : Comment)]).getLast? =
            some (⟨pushFailMsg stderr⟩ : Comment) := getLast?_append_singleton _ _
        have hdup2 : strHasB (pushFailMsg stderr)
            "Failed to push changes" = true := by
          simp [strHasB]
          exact pushFailMsg_hasMarker_plain stderr
        simp only [hiss, Bool.false_eq_true, if_false]
        unfold push_changes_with_authentication
        simp only [htokb, hatt, hlast2, hdup2, if_true, Bool.false_eq_true,
          if_false]

/-- Witness for C9 at concrete states: a two-branch state whose only
comment is fresh, and a rejected push over a one-comment thread. -/
theorem errorPublication_idempotent_witness :
    (get_development_branch
      (get_development_branch
        { stTwoBranchesNoComments with comments := [{ body := "please fix" }] }
        42 true).2 42 true).2.comments =
      (get_development_branch
        { stTwoBranchesNoComments with comments := [{ body := "please fix" }] }
        42 true).2.comments ∧
    (push_changes_with_authentication
      { envRejectedNoComments with threadComments :=
          (push_changes_with_authentication
            { envRejectedNoComments with
                threadComments := [{ body := "hi" }] }).threadComments }).threadComments =
      (push_changes_with_authentication
        { envRejectedNoComments with
            threadComments := [{ body := "hi" }] }).threadComments := by
  have h := errorPublication_idempotent
    { stTwoBranchesNoComments with comments := [{ body := "please fix" }] }
    42 true (by decide) { body := "please fix" } rfl (by decide)
    { envRejectedNoComments with threadComments := [{ body := "hi" }] }
    "remote rejected" (by decide) rfl { body := "hi" } rfl (by decide)
  exact ⟨h.1.2, h.2.2⟩

/-- Local working-copy state: local branch heads, branches existing on the
remote, the checked-out branch, and the repository default branch (the
master/main head that back_to_master_branch detects; it is modelled as
present, since its absence aborts the whole repository pass earlier). -/
structure GitState where
  localHeads : List String
  remoteBranches : List String
  currentBranch : String
  defaultBranch : String
deriving DecidableEq, Repr

/-- branch_handler.delete_branch: deletes the branch head if it is among
the local heads; the force flag is passed to delete_head. Only local heads
are touched — remote branches are never deleted by this function. -/
def delete_branch (g : GitState) (branchName : String) (_force : Bool) :
    GitState :=
  if branchName ∈ g.localHeads then
    { g with localHeads := g.localHeads.erase branchName }
  else g

/-- branch_handler.back_to_master_branch: checks out the master/main
branch. -/
def back_to_master_branch (g : GitState) : GitState :=
  { g with currentBranch := g.defaultBranch }

/-- Environment of one run_aider call: whether the aider binary exists,
whether the process exits successfully, and the head commit hash before
and after the run. The source re-runs aider once when the output asks for
a version re-run; that re-run is modelled as producing the same outcome. -/
structure AiderEnv where
  aiderInstalled : Bool
  exitOk : Bool
  preCommit : String
  postCommit : String
  aiderStdout : String
  aiderStderr : String
deriving DecidableEq, Repr

/-- Placeholder for the traceback.format_exc() block interpolated into
wrapped error messages. -/
def tracebackBlock : String :=
  "\n\n```\nTraceback (most recent call last):\n```"

/-- The message of the no-changes failure raised inside run_aider. -/
def noChangesMsg : String := "No changes made by Aider"

/-- response_agent.run_aider: missing binary raises ValueError (the quotes
around pip install aider-chat in the original text are dropped); a failing
exit raises RuntimeError; a successful exit with an unchanged head commit
raises RuntimeError(No changes made by Aider), which the catch-all handler
rewraps into a RuntimeError whose text embeds the original message;
otherwise the captured stdout is returned. -/
def run_aider (env : AiderEnv) : Except PyError String :=
  if !env.aiderInstalled then
    .error (.valueError
      "Aider not found. Please install it first with pip install aider-chat")
  else if !env.exitOk then
    .error (.runtimeError ("Failed to run aider: " ++ env.aiderStderr))
  else if env.preCommit == env.postCommit then
    .error (.runtimeError
      ("Unexpected error running aider: " ++ noChangesMsg ++ tracebackBlock))
  else
    .ok env.aiderStdout

/-- Behaviour of the push step inside develop_issue_flow: a successful
push, a rejected push — which push_changes_with_authentication reports as
a returned (false, message) pair, so the flow continues past it — or a
raised exception. -/
inductive PushBehavior where
  | success
  | rejected
  | raisesErr (text : String)
deriving DecidableEq, Repr

/-- Environment of one develop_issue_flow invocation, entered after the
development branch has been created and checked out: the branch, the git
state at that point, the aider behaviour, the push behaviour, and whether
the PR-creation step and the publication steps (issue comment, label,
PR comment) succeed, with the exception texts they would raise. -/
structure DevEnv where
  branch : String
  git : GitState
  aider : AiderEnv
  pushBehavior : PushBehavior
  createPrOk : Bool
  createPrText : String
  publishOk : Bool
  publishText : String
deriving DecidableEq, Repr

/-- The wrapped message raised by the develop_issue_flow error handler. -/
def rollbackMsg (original : String) : String :=
  "ERROR: Failed to process develop issue: " ++ original ++ tracebackBlock

/-- The cleanup performed by the develop_issue_flow except block: switch
back to the default branch first, then force-delete the working branch —
unconditionally, whether or not the branch was pushed. The cleanup itself
is modelled as succeeding (its own failure is caught and only appended to
the message). -/
def developRollback (g : GitState) (branchName : String) : GitState :=
  delete_branch (back_to_master_branch g) branchName true

/-- response_agent.develop_issue_flow from the checkout onwards: run aider,
push (a rejection returns a pair and the flow continues), create the pull
request, publish (issue response, label, PR comment), switch back to the
default branch. Any raised exception lands in the except block, which
rolls back (developRollback) and re-raises a wrapped error. -/
def develop_issue_flow (env : DevEnv) : Except String Unit × GitState :=
  match run_aider env.aider with
  | .error e => (.error (rollbackMsg e.msg), developRollback env.git env.branch)
  | .ok _ =>
      match env.pushBehavior with
      | .raisesErr text =>
          (.error (rollbackMsg text), developRollback env.git env.branch)
      | pb =>
          let g1 := match pb with
            | .success =>
                { env.git with
                    remoteBranches := env.git.remoteBranches ++ [env.branch] }
            | _ => env.git
          if !env.createPrOk then
            (.error (rollbackMsg env.createPrText), developRollback g1 env.branch)
          else if !env.publishOk then
            (.error (rollbackMsg env.publishText), developRollback g1 env.branch)
          else
            (.ok (), back_to_master_branch g1)

/-- The push step completed successfully before the failure: the aider
step returned normally and the push behaviour was success. -/
def pushCompleted (env : DevEnv) : Prop :=
  (∃ s, run_aider env.aider = .ok s) ∧ env.pushBehavior = .success

/-- Concrete environment for the C7 counterexample: the push succeeds and
the PR-creation step that follows it raises. -/
def envPushedThenPrFails : DevEnv :=
  { branch := "42-fix"
    git := { localHeads := ["master", "42-fix"]
             remoteBranches := ["master"]
             currentBranch := "42-fix"
             defaultBranch := "master" }
    aider := { aiderInstalled := true
               exitOk := true
               preCommit := "aaa"
               postCommit := "bbb"
               aiderStdout := "edited"
               aiderStderr := "" }
    pushBehavior := .success
    createPrOk := false
    createPrText := "Failed to create pull request: http 500"
    publishOk := true
    publishText := "" }

/-- C7 counterexample: the branch was successfully pushed (it is on the
remote in the final state) and the subsequent PR-creation step failed,
yet the failure path deleted the local working branch — the final local
heads no longer contain 42-fix — instead of leaving it alive. -/
theorem developFlow_pushed_branch_still_deleted :
    (develop_issue_flow envPushedThenPrFails).1 =
      .error (rollbackMsg envPushedThenPrFails.createPrText) ∧
    (develop_issue_flow envPushedThenPrFails).2.remoteBranches =
      ["master", "42-fix"] ∧
    (develop_issue_flow envPushedThenPrFails).2.localHeads = ["master"] :=
  ⟨rfl, rfl, by decide⟩

/-- C7 amended: on any failure of develop_issue_flow after checkout, the
rollback switches back to the repository default branch and force-deletes
the local working branch unconditionally — also when the branch had
already been pushed; only the remote copy of a pushed branch survives,
because delete_branch removes local heads only. Branch heads are assumed
pairwise distinct, as git guarantees. -/
theorem developRollback_currentBranch (g : GitState) (b : String) :
    (developRollback g b).currentBranch = g.defaultBranch := by
  unfold developRollback delete_branch back_to_master_branch
  split <;> rfl

theorem developRollback_remoteBranches (g : GitState) (b : String) :
    (developRollback g b).remoteBranches = g.remoteBranches := by
  unfold developRollback delete_branch back_to_master_branch
  split <;> rfl

theorem branch_not_in_developRollback (g : GitState) (b : String)
    (hnodup : g.localHeads.Nodup) :
    b ∉ (developRollback g b).localHeads := by
  unfold developRollback delete_branch back_to_master_branch
  split
  · intro hin
    exact ((List.Nodup.mem_erase_iff hnodup).mp hin).1 rfl
  · next hmem => exact hmem

theorem developFlow_rollback (env : DevEnv) (m : String)
    (hfail : (develop_issue_flow env).1 = .error m)
    (hnodup : env.git.localHeads.Nodup) :
    (develop_issue_flow env).2.currentBranch = env.git.defaultBranch ∧
    env.branch ∉ (develop_issue_flow env).2.localHeads ∧
    (pushCompleted env → env.branch ∈ (develop_issue_flow env).2.remoteBranches) := by
  unfold develop_issue_flow at hfail ⊢
  cases ha : run_aider env.aider with
  | error e =>
      simp only [ha]
      refine ⟨developRollback_currentBranch _ _,
        branch_not_in_developRollback _ _ hnodup, ?_⟩
      intro hp
      rcases hp.1 with ⟨s, hs⟩
      rw [ha] at hs
      exact absurd hs (fun h => Except.noConfusion h)
  | ok out =>
      simp only [ha] at hfail ⊢
      cases hpb : env.pushBehavior with
      | raisesErr text =>
          simp only [hpb]
          refine ⟨developRollback_currentBranch _ _,
            branch_not_in_developRollback _ _ hnodup, ?_⟩
          intro hp
          have hps := hp.2
          rw [hpb] at hps
          exact absurd hps (fun h => PushBehavior.noConfusion h)
      | success =>
          simp only [hpb] at hfail ⊢
          by_cases hcp : env.createPrOk = true
          · by_cases hpub : env.publishOk = true
            · simp only [hcp, hpub, Bool.not_true, Bool.false_eq_true,
                if_false] at hfail
              exact absurd hfail (fun h => Except.noConfusion h)
            · have hpub2 : env.publishOk = false := by simpa using hpub
              simp only [hcp, hpub2, Bool.not_true, Bool.not_false,
                Bool.false_eq_true, if_false, if_true]
              refine ⟨developRollback_currentBranch _ _,
                branch_not_in_developRollback _ _ hnodup, ?_⟩
              intro _
              rw [developRollback_remoteBranches]
              simp
          · have hcp2 : env.createPrOk = false := by simpa using hcp
            simp only [hcp2, Bool.not_false, if_true]
            refine ⟨developRollback_currentBranch _ _,
              branch_not_in_developRollback _ _ hnodup, ?_⟩
            intro _
            rw [developRollback_remoteBranches]
            simp
      | rejected =>
          simp only [hpb] at hfail ⊢
          by_cases hcp : env.createPrOk = true
          · by_cases hpub : env.publishOk = true
            · simp only [hcp, hpub, Bool.not_true, Bool.false_eq_true,
                if_false] at hfail
              exact absurd hfail (fun h => Except.noConfusion h)
            · have hpub2 : env.publishOk = false := by simpa using hpub
              simp only [hcp, hpub2, Bool.not_true, Bool.not_false,
                Bool.false_eq_true, if_false, if_true]
              refine ⟨developRollback_currentBranch _ _,
                branch_not_in_developRollback _ _ hnodup, ?_⟩
              intro hp
              have hps := hp.2
              rw [hpb] at hps
              exact absurd hps (fun h => PushBehavior.noConfusion h)
          · have hcp2 : env.createPrOk = false := by simpa using hcp
            simp only [hcp2, Bool.not_false, if_true]
            refine ⟨developRollback_currentBranch _ _,
              branch_not_in_developRollback _ _ hnodup, ?_⟩
            intro hp
            have hps := hp.2
            rw [hpb] at hps
            exact absurd hps (fun h => PushBehavior.noConfusion h)

/-- Witness for the amended rollback theorem at the concrete pushed-then-
failed environment: the final state sits on the default branch. -/
theorem developFlow_rollback_witness :
    (develop_issue_flow envPushedThenPrFails).2.currentBranch =
      envPushedThenPrFails.git.defaultBranch :=
  (developFlow_rollback envPushedThenPrFails
    (rollbackMsg envPushedThenPrFails.createPrText) rfl (by decide)).1

/-- The middle part of a three-part concatenation is an infix of it. -/
theorem strHas_sandwich (pre mid suf : String) :
    strHas (pre ++ mid ++ suf) mid := by
  unfold strHas
  refine ⟨pre.data, suf.data, ?_⟩
  simp [String.data_append]

/-- C8: a successful editor exit with an unchanged head commit is reported
as a failure — run_aider raises the wrapped no-changes RuntimeError — and
the develop workflow that invoked it ends in the error outcome, never in
success; both error messages carry the no-changes text. -/
theorem runAider_noChanges_is_error (env : DevEnv)
    (hinst : env.aider.aiderInstalled = true)
    (hexit : env.aider.exitOk = true)
    (hsame : env.aider.preCommit = env.aider.postCommit) :
    (∃ m, run_aider env.aider = .error (.runtimeError m) ∧
      strHas m noChangesMsg) ∧
    (∃ m2, (develop_issue_flow env).1 = .error m2 ∧
      strHas m2 noChangesMsg) ∧
    (∀ u, (develop_issue_flow env).1 ≠ .ok u) := by
  have hra : run_aider env.aider = .error (.runtimeError
      ("Unexpected error running aider: " ++ noChangesMsg ++ tracebackBlock)) := by
    unfold run_aider
    simp only [hinst, hexit, Bool.not_true, Bool.false_eq_true, if_false,
      hsame, beq_self_eq_true, if_true]
  have hmid : strHas
      ("Unexpected error running aider: " ++ noChangesMsg ++ tracebackBlock)
      noChangesMsg :=
    strHas_sandwich _ _ _
  have hflow : (develop_issue_flow env).1 = .error (rollbackMsg
      ("Unexpected error running aider: " ++ noChangesMsg ++ tracebackBlock)) := by
    unfold develop_issue_flow
    rw [hra]
    rfl
  refine ⟨⟨_, hra, hmid⟩, ⟨_, hflow, ?_⟩, ?_⟩
  · unfold rollbackMsg
    refine List.IsInfix.trans hmid ?_
    exact strHas_sandwich "ERROR: Failed to process develop issue: " _ tracebackBlock
  · intro u h
    rw [hflow] at h
    exact Except.noConfusion h

/-- Concrete environment for the C8 witness: aider exits successfully but
the head commit is unchanged. -/
def envAiderNoChanges : DevEnv :=
  { envPushedThenPrFails with
      aider := { aiderInstalled := true
                 exitOk := true
                 preCommit := "aaa"
                 postCommit := "aaa"
                 aiderStdout := "nothing to do"
                 aiderStderr := "" }
      createPrOk := true }

/-- Witness for the no-changes theorem at the concrete environment. -/
theorem runAider_noChanges_is_error_witness :
    (∃ m, run_aider envAiderNoChanges.aider = .error (.runtimeError m) ∧
      strHas m noChangesMsg) ∧
    (∀ u, (develop_issue_flow envAiderNoChanges).1 ≠ .ok u) := by
  have h := runAider_noChanges_is_error envAiderNoChanges rfl rfl rfl
  exact ⟨h.1, h.2.2⟩

/-- Top-level names bound in the git_utils module when it is imported:
its imports and function definitions. The name issue is bound only inside
the `if __name__ == main` block, which does not run on import. -/
def gitUtilsModuleNames : List String :=
  ["List", "Dict", "Optional", "Tuple", "Union", "os", "subprocess", "git",
   "get_issue_related_branches", "get_current_branch", "checkout_branch",
   "delete_branch", "Github", "Issue", "Repository", "IssueComment",
   "PullRequest", "load_dotenv", "re", "clean_response", "get_github_client",
   "get_repository", "get_open_issues", "get_issue_comments",
   "create_issue_comment", "get_issue_details", "search_issues",
   "write_issue_response", "iterate_issues", "clone_repository",
   "update_repository", "get_pr_branch", "get_development_branch",
   "create_pull_request", "create_pull_request_from_issue",
   "push_changes_with_authentication", "has_linked_pr", "get_linked_pr",
   "get_associated_issue", "is_pull_request", "update_self_repo",
   "perform_github_search"]

/-- Local names bound inside git_utils.is_pull_request: its single
parameter. -/
def isPullRequestLocalNames : List String := ["issue_or_pr"]

/-- git_utils.is_pull_request. Its body is the expression
testing pull against issue.html_url, whose free variable is issue — but
the parameter is named issue_or_pr and no module-level binding of issue
exists on import, so Python name resolution fails and every call raises
NameError (the quotes around issue in the CPython message are dropped).
The commented-out previous body used the parameter correctly. The
then-branch is proved unreachable rather than modelled. -/
def is_pull_request (issue_or_pr : Item) : Except PyError Bool :=
  if h : "issue" ∈ isPullRequestLocalNames ∨ "issue" ∈ gitUtilsModuleNames then
    absurd h (by decide)
  else
    .error (.nameError "name issue is not defined")

/-- C10: is_pull_request never returns a boolean — for every input it
raises NameError, because its body references the undefined name issue.
Consequently the issue-versus-PR classification at the top of
process_issue (performed before its try block) cannot complete normally. -/
theorem isPullRequest_raises_nameError (issue_or_pr : Item) :
    is_pull_request issue_or_pr =
      .error (.nameError "name issue is not defined") := rfl

end BlechBot
